import Mathlib

/-!
Verification development for the light-house browser-automation core
(`app/browseruse_agent.py`, `app/ollama_client.py`, and the summarize step of
`app/main.py`).

The Python source is shallowly embedded:

* `json.loads` is embedded as `parseJson`, a fuel-indexed recursive-descent
  JSON parser.  JSON numbers are modelled as integers only (no action field of
  the DSL accepts fractional values, and every input exercised by the claims is
  integral); fractional or exponent numerals are rejected by the model.
* pydantic model construction (`NavigateAction(**obj)` etc.) is embedded as
  `validateAction`; extra object keys are ignored, required string fields must
  be JSON strings, optional fields accept `null` or absence (absence fills the
  declared default).
* the external effects (the Ollama HTTP transport and the Playwright page) are
  embedded as explicit environments: `NetResult` for one transport call, and
  `PageEnv σ` for a page whose internal state `σ` is threaded through every
  page operation.  A run additionally records the list of page operations it
  performed (`PageCall`), which makes "the engine performed no browser
  interaction" and "the engine slept for n ms" observable statements.
* Python exceptions are embedded as `Except`: a function that can raise
  returns `Except`, and a caught exception is a matched `.error`.
-/

/-- Python truthiness of an `Optional[str]` value: `None` and `""` are falsy. -/
def pyTruthyS : Option String → Bool
  | none => false
  | some s => !(s == "")

/-- Python truthiness of an `Optional[bool]` value: `None` and `False` are falsy. -/
def pyTruthyB : Option Bool → Bool
  | none => false
  | some b => b

/-- Python `x or d` for `x : Optional[int]`: `None` and `0` are falsy and fall
back to `d`; any other integer (including negatives) is returned as is.  This
models `act.timeout or 1000` and `act.timeout or timeout_ms` in
`run_browser_actions`. -/
def pyOr : Option Int → Int → Int
  | none, d => d
  | some t, d => if t == 0 then d else t

/-- Whitespace characters removed by Python `str.strip()` (ASCII subset). -/
def isPyWs : Char → Bool
  | ' ' => true
  | '\t' => true
  | '\n' => true
  | '\r' => true
  | '\x0b' => true
  | '\x0c' => true
  | _ => false

/-- Python `str.strip()`: remove leading and trailing whitespace. -/
def strip (s : String) : String :=
  String.mk (((s.data.dropWhile isPyWs).reverse.dropWhile isPyWs).reverse)

/-! ## JSON values and `json.loads` -/

/-- JSON values as produced by `json.loads` (numbers restricted to integers,
see the header note). -/
inductive Json where
  | null
  | bool (b : Bool)
  | num (n : Int)
  | str (s : String)
  | arr (xs : List Json)
  | obj (fields : List (String × Json))

/-- Whitespace skipped by the JSON grammar. -/
def isJsonWs : Char → Bool
  | ' ' => true
  | '\t' => true
  | '\n' => true
  | '\r' => true
  | _ => false

/-- Skip JSON whitespace. -/
def skipJsonWs (cs : List Char) : List Char :=
  cs.dropWhile isJsonWs

/-- Value of a hexadecimal digit, through its code point. -/
def hexDigitVal (c : Char) : Option Nat :=
  let n := c.toNat
  if 48 ≤ n && n ≤ 57 then some (n - 48)
  else if 97 ≤ n && n ≤ 102 then some (n - 87)
  else if 65 ≤ n && n ≤ 70 then some (n - 55)
  else none

/-- Simple escape characters of JSON strings. -/
def escChar : Char → Option Char
  | 'n' => some '\n'
  | 't' => some '\t'
  | 'r' => some '\r'
  | 'b' => some '\x08'
  | 'f' => some '\x0c'
  | '/' => some '/'
  | '"' => some '"'
  | '\\' => some '\\'
  | _ => none

/-- Parse the body of a JSON string literal (the opening quote has been
consumed); returns the decoded characters and the remaining input. -/
def parseStringBody : List Char → Except String (List Char × List Char)
  | [] => Except.error "Unterminated string"
  | '"' :: cs => Except.ok ([], cs)
  | '\\' :: 'u' :: h1 :: h2 :: h3 :: h4 :: cs =>
    match hexDigitVal h1, hexDigitVal h2, hexDigitVal h3, hexDigitVal h4 with
    | some a, some b, some c, some d =>
      (match parseStringBody cs with
       | Except.ok (body, rest) =>
         Except.ok (Char.ofNat (a * 4096 + b * 256 + c * 16 + d) :: body, rest)
       | Except.error e => Except.error e)
    | _, _, _, _ => Except.error "Invalid hex escape"
  | '\\' :: e :: cs =>
    (match escChar e with
     | some c =>
       (match parseStringBody cs with
        | Except.ok (body, rest) => Except.ok (c :: body, rest)
        | Except.error err => Except.error err)
     | none => Except.error "Invalid escape")
  | '\\' :: [] => Except.error "Unterminated string"
  | c :: cs =>
    (match parseStringBody cs with
     | Except.ok (body, rest) => Except.ok (c :: body, rest)
     | Except.error err => Except.error err)

/-- Split off the maximal leading run of decimal digits. -/
def spanDigits : List Char → List Char × List Char
  | [] => ([], [])
  | c :: rest =>
    match c.isDigit with
    | false => ([], c :: rest)
    | true =>
      let tail := spanDigits rest
      (c :: tail.1, tail.2)

/-- Numeric value of a digit run, by its code points. -/
def natOfDigits (acc : Nat) : List Char → Nat
  | [] => acc
  | d :: ds => natOfDigits (10 * acc + (d.toNat - 48)) ds

/-- Parse a JSON integer numeral (see the header note on numbers). -/
def parseNumberFrom (cs : List Char) : Except String (Json × List Char) :=
  let neg : Bool :=
    match cs with
    | '-' :: _ => true
    | _ => false
  let split := spanDigits (if neg then cs.drop 1 else cs)
  if split.1.isEmpty then Except.error "Expecting value"
  else
    match split.2 with
    | '.' :: _ => Except.error "Non-integer numeral not modelled"
    | 'e' :: _ => Except.error "Non-integer numeral not modelled"
    | 'E' :: _ => Except.error "Non-integer numeral not modelled"
    | _ =>
      let n : Int := Int.ofNat (natOfDigits 0 split.1)
      Except.ok (Json.num (if neg then -n else n), split.2)

/-- Mode of the JSON parser core: a single value, the items of an array after
the opening bracket, or the members of an object after the opening brace. -/
inductive PMode where
  | value
  | items (acc : List Json)
  | members (acc : List (String × Json))

/-- Recursive-descent JSON parser core, structurally recursive on its fuel so
that the kernel can evaluate it on concrete input. -/
def parseCore : Nat → PMode → List Char → Except String (Json × List Char)
  | 0, _, _ => Except.error "Out of fuel"
  | fuel + 1, PMode.value, cs =>
    (match skipJsonWs cs with
     | [] => Except.error "Expecting value"
     | c :: rest =>
       if c == '{' then
         (match skipJsonWs rest with
          | '}' :: rest2 => Except.ok (Json.obj [], rest2)
          | _ => parseCore fuel (PMode.members []) rest)
       else if c == '[' then
         (match skipJsonWs rest with
          | ']' :: rest2 => Except.ok (Json.arr [], rest2)
          | _ => parseCore fuel (PMode.items []) rest)
       else if c == '"' then
         (match parseStringBody rest with
          | Except.ok (body, rest2) => Except.ok (Json.str (String.mk body), rest2)
          | Except.error e => Except.error e)
       else if c == 't' then
         (match rest with
          | 'r' :: 'u' :: 'e' :: rest2 => Except.ok (Json.bool true, rest2)
          | _ => Except.error "Expecting value")
       else if c == 'f' then
         (match rest with
          | 'a' :: 'l' :: 's' :: 'e' :: rest2 => Except.ok (Json.bool false, rest2)
          | _ => Except.error "Expecting value")
       else if c == 'n' then
         (match rest with
          | 'u' :: 'l' :: 'l' :: rest2 => Except.ok (Json.null, rest2)
          | _ => Except.error "Expecting value")
       else if c == '-' || c.isDigit then
         parseNumberFrom (c :: rest)
       else Except.error "Expecting value")
  | fuel + 1, PMode.items acc, cs =>
    (match parseCore fuel PMode.value cs with
     | Except.error e => Except.error e
     | Except.ok (v, rest) =>
       (match skipJsonWs rest with
        | ',' :: rest2 => parseCore fuel (PMode.items (acc ++ [v])) rest2
        | ']' :: rest2 => Except.ok (Json.arr (acc ++ [v]), rest2)
        | _ => Except.error "Expecting comma or bracket"))
  | fuel + 1, PMode.members acc, cs =>
    (match skipJsonWs cs with
     | '"' :: rest =>
       (match parseStringBody rest with
        | Except.error e => Except.error e
        | Except.ok (key, rest2) =>
          (match skipJsonWs rest2 with
           | ':' :: rest3 =>
             (match parseCore fuel PMode.value rest3 with
              | Except.error e => Except.error e
              | Except.ok (v, rest4) =>
                (match skipJsonWs rest4 with
                 | ',' :: rest5 =>
                   parseCore fuel (PMode.members (acc ++ [(String.mk key, v)])) rest5
                 | '}' :: rest5 =>
                   Except.ok (Json.obj (acc ++ [(String.mk key, v)]), rest5)
                 | _ => Except.error "Expecting comma or brace"))
           | _ => Except.error "Expecting colon"))
     | _ => Except.error "Expecting property name")

/-- Embedding of `json.loads`: parse a whole string as one JSON document. -/
def parseJson (s : String) : Except String Json :=
  match parseCore (2 * s.length + 2) PMode.value s.data with
  | Except.error e => Except.error e
  | Except.ok (v, rest) =>
    match skipJsonWs rest with
    | [] => Except.ok v
    | _ => Except.error "Extra data"

/-! ## URLs (`pydantic.HttpUrl` and `urllib.parse.urlparse`) -/

/-- Absolute http(s) URL as accepted by `pydantic.HttpUrl`, split the way
`urllib.parse.urlparse` splits `str(act.url)`: `netloc` is the authority
component (host, lowercased by pydantic normalisation, possibly with a port)
and `rest` is the path/query/fragment remainder.  Internationalised-host and
default-port normalisation of pydantic are not modelled. -/
structure Url where
  scheme : String
  netloc : String
  rest : String
deriving DecidableEq

/-- Render a `Url` the way `str(act.url)` renders an `HttpUrl` (an empty path
becomes `/`). -/
def strUrl (u : Url) : String :=
  u.scheme ++ "://" ++ u.netloc ++ (if u.rest == "" then "/" else u.rest)

/-- Characters that end the authority component of a URL. -/
def endsNetloc (c : Char) : Bool :=
  c == '/' || c == '?' || c == '#'

/-- Embedding of `pydantic.HttpUrl` validation: the scheme must be `http` or
`https` and the authority must be non-empty; the host is lowercased. -/
def parseHttpUrl (s : String) : Option Url :=
  let parsed : Option (String × String) :=
    if s.startsWith "http://" then some ("http", s.drop 7)
    else if s.startsWith "https://" then some ("https", s.drop 8)
    else none
  match parsed with
  | none => none
  | some (scheme, after) =>
    let netloc := after.takeWhile (fun c => !endsNetloc c)
    let rest := after.drop netloc.length
    if netloc == "" then none
    else some { scheme := scheme, netloc := netloc.toLower, rest := rest }

/-! ## Action DSL (`browseruse_agent.py` lines 19-46) -/

/-- The five pydantic action models of the DSL.  Field names and defaults
follow the source; `attribute` is rendered `attr` because `attribute` is a
Lean keyword. -/
inductive BrowserAction where
  | NavigateAction (url : Url)
  | ClickAction (selector : String) (wait_for : Option String)
  | TypeAction (selector : String) (text : String) (clear : Option Bool) (delay : Option Int)
  | WaitAction (selector : Option String) (timeout : Option Int)
  | ExtractAction (selector : String) (attr : Option String)
deriving DecidableEq

/-- Python `dict.get`: the value of the last occurrence of a key (later
duplicate keys win in `json.loads`). -/
def jsonGet (fields : List (String × Json)) (key : String) : Option Json :=
  match fields.reverse.find? (fun p => p.1 == key) with
  | some p => some p.2
  | none => none

/-- Required string field of a pydantic model: present and a JSON string. -/
def reqStrField (fields : List (String × Json)) (name : String) : Except String String :=
  match jsonGet fields name with
  | some (Json.str s) => Except.ok s
  | some _ => Except.error ("Field " ++ name ++ " must be a string")
  | none => Except.error ("Field required: " ++ name)

/-- Optional string field with a default used when the field is absent;
explicit `null` yields `None`. -/
def optStrField (fields : List (String × Json)) (name : String) (dflt : Option String) :
    Except String (Option String) :=
  match jsonGet fields name with
  | none => Except.ok dflt
  | some Json.null => Except.ok none
  | some (Json.str s) => Except.ok (some s)
  | some _ => Except.error ("Field " ++ name ++ " must be a string or null")

/-- Optional integer field with a default used when the field is absent. -/
def optIntField (fields : List (String × Json)) (name : String) (dflt : Option Int) :
    Except String (Option Int) :=
  match jsonGet fields name with
  | none => Except.ok dflt
  | some Json.null => Except.ok none
  | some (Json.num n) => Except.ok (some n)
  | some _ => Except.error ("Field " ++ name ++ " must be an integer or null")

/-- Optional boolean field with a default used when the field is absent. -/
def optBoolField (fields : List (String × Json)) (name : String) (dflt : Option Bool) :
    Except String (Option Bool) :=
  match jsonGet fields name with
  | none => Except.ok dflt
  | some Json.null => Except.ok none
  | some (Json.bool b) => Except.ok (some b)
  | some _ => Except.error ("Field " ++ name ++ " must be a boolean or null")

/-- Embedding of the per-element validation of `generate_browser_actions`
(lines 69-85): the element must be an object, its `action` discriminator is
matched against the five kinds, and the matching pydantic model is built;
anything else raises `ValueError`/`ValidationError`. -/
def validateAction (j : Json) : Except String BrowserAction :=
  match j with
  | Json.obj fields =>
    (match jsonGet fields "action" with
     | some (Json.str "navigate") =>
       (match reqStrField fields "url" with
        | Except.error e => Except.error e
        | Except.ok s =>
          match parseHttpUrl s with
          | some u => Except.ok (BrowserAction.NavigateAction u)
          | none => Except.error "Invalid URL for field url")
     | some (Json.str "click") =>
       (match reqStrField fields "selector" with
        | Except.error e => Except.error e
        | Except.ok sel =>
          match optStrField fields "wait_for" none with
          | Except.error e => Except.error e
          | Except.ok wf => Except.ok (BrowserAction.ClickAction sel wf))
     | some (Json.str "type") =>
       (match reqStrField fields "selector" with
        | Except.error e => Except.error e
        | Except.ok sel =>
          match reqStrField fields "text" with
          | Except.error e => Except.error e
          | Except.ok text =>
            match optBoolField fields "clear" (some true) with
            | Except.error e => Except.error e
            | Except.ok clear =>
              match optIntField fields "delay" none with
              | Except.error e => Except.error e
              | Except.ok delay =>
                Except.ok (BrowserAction.TypeAction sel text clear delay))
     | some (Json.str "wait") =>
       (match optStrField fields "selector" none with
        | Except.error e => Except.error e
        | Except.ok sel =>
          match optIntField fields "timeout" (some 5000) with
          | Except.error e => Except.error e
          | Except.ok t => Except.ok (BrowserAction.WaitAction sel t))
     | some (Json.str "extract") =>
       (match reqStrField fields "selector" with
        | Except.error e => Except.error e
        | Except.ok sel =>
          match optStrField fields "attribute" none with
          | Except.error e => Except.error e
          | Except.ok a => Except.ok (BrowserAction.ExtractAction sel a))
     | some _ => Except.error "Unknown action type"
     | none => Except.error "Unknown action type")
  | _ => Except.error "Action is not an object"

/-- Validate every element in order; the first failure wins, as in the
source's `for obj in arr` loop. -/
def validateActions : List Json → Except String (List BrowserAction)
  | [] => Except.ok []
  | j :: rest =>
    match validateAction j with
    | Except.error e => Except.error e
    | Except.ok a =>
      match validateActions rest with
      | Except.error e => Except.error e
      | Except.ok follows => Except.ok (a :: follows)

/-- Embedding of the body of the `try` block of `generate_browser_actions`
(lines 65-87): `json.loads`, the `isinstance(arr, list)` check, and the
per-element validation loop. -/
def parseActions (raw : String) : Except String (List BrowserAction) :=
  match parseJson raw with
  | Except.error e => Except.error ("JSONDecodeError: " ++ e)
  | Except.ok (Json.arr xs) => validateActions xs
  | Except.ok _ => Except.error "SLM output JSON is not a list"

/-! ## Generation client (`ollama_client.py`) -/

/-- Outcome of one HTTP call to the Ollama endpoint, as seen by
`query_ollama`.  `reqError` covers every `requests.RequestException`
(connection failure, non-2xx status via `raise_for_status`, and an unparsable
JSON body, which `requests` also raises as a `RequestException`).  `response`
covers a parsed JSON body: `respField` is its `"response"` field when that
field is present and a string, and `none` otherwise (in which case the
subscript raises and the exception escapes `query_ollama`). -/
inductive NetResult where
  | reqError (msg : String)
  | response (respField : Option String)
deriving DecidableEq

/-- Embedding of `query_ollama` (lines 6-19): transport errors are caught and
returned as an error-prefixed string; a successful call returns the
`"response"` field stripped; a body without a string `"response"` field makes
the function raise (`Except.error`). -/
def query_ollama (r : NetResult) : Except String String :=
  match r with
  | NetResult.reqError e => Except.ok ("Ollama API error: " ++ e)
  | NetResult.response (some s) => Except.ok (strip s)
  | NetResult.response none => Except.error "KeyError: response"

/-! ## Repair loop (`generate_browser_actions`, lines 53-103) -/

/-- Terminal error of the repair loop: `generationFailed` is the
`RuntimeError` raised at line 103; `uncaught` is an exception escaping from a
`query_ollama` call (the source does not catch those). -/
inductive GenError where
  | generationFailed (msg : String)
  | uncaught (msg : String)
deriving DecidableEq

/-- The fixed text prepended to the previous raw output to form a repair
prompt (lines 92-96). -/
def repairHeader : String :=
  "The previous response was not valid JSON or did not match the expected DSL schema. " ++
  "Please output ONLY the corrected JSON array of actions, nothing else. " ++
  "Here was the previous response:\n"

/-- Message of the terminal `RuntimeError` (line 103). -/
def failMsg (max_attempts : Nat) (last_raw : String) : String :=
  "Failed to generate valid browser actions after " ++ toString max_attempts ++
  " attempts. Last output: " ++ last_raw

/-- Loop body of `generate_browser_actions`.  `net k` is the outcome of the
`k`-th transport call of this invocation (call `0` was the original prompt),
`raw` the raw output currently under validation, and `remaining` how many of
the `max_attempts` loop iterations are left.  Besides the result it returns
the generation attempts it performed: pairs of the prompt sent and the raw
text received (`none` when that call raised). -/
def genLoop (net : Nat → NetResult) (max_attempts : Nat) :
    Nat → String → Nat → Except GenError (List BrowserAction) × List (String × Option String)
  | _, raw, 0 => (Except.error (GenError.generationFailed (failMsg max_attempts raw)), [])
  | k, raw, remaining + 1 =>
    match parseActions raw with
    | Except.ok acts => (Except.ok acts, [])
    | Except.error _ =>
      match remaining with
      | 0 => (Except.error (GenError.generationFailed (failMsg max_attempts raw)), [])
      | _ + 1 =>
        let rp := repairHeader ++ raw
        match query_ollama (net k) with
        | Except.error e => (Except.error (GenError.uncaught e), [(rp, none)])
        | Except.ok raw2 =>
          match genLoop net max_attempts (k + 1) raw2 remaining with
          | (res, attempts) => (res, (rp, some raw2) :: attempts)

/-- Embedding of `generate_browser_actions`: query the model with the original
prompt, then run the bounded parse/repair loop.  Returns the result together
with the full list of generation attempts (prompt sent, raw received); the
repair prompts are the attempts after the first. -/
def generate_browser_actions (net : Nat → NetResult) (prompt : String) (max_attempts : Nat) :
    Except GenError (List BrowserAction) × List (String × Option String) :=
  match query_ollama (net 0) with
  | Except.error e => (Except.error (GenError.uncaught e), [(prompt, none)])
  | Except.ok raw =>
    match genLoop net max_attempts 1 raw max_attempts with
    | (res, attempts) => (res, (prompt, some raw) :: attempts)

/-! ## Execution engine (`run_browser_actions`, lines 112-170) -/

/-- Exceptions a Playwright page operation can raise, as distinguished by the
source's two `except` clauses: `timeout` is `PlaywrightTimeoutError`, `other`
any other exception. -/
inductive PwErr where
  | timeout (msg : String)
  | other (msg : String)
deriving DecidableEq

/-- One page operation performed by the engine, with the arguments the source
passes; this is the observable browser interaction of a run. -/
inductive PageCall where
  | goto (url : String)
  | click (selector : String)
  | waitForSelector (selector : String) (timeout : Int)
  | fill (selector : String) (text : String)
  | typeKeys (selector : String) (text : String) (delay : Int)
  | waitForTimeout (ms : Int)
  | getAttribute (selector : String) (attr : String)
  | innerText (selector : String)
deriving DecidableEq

/-- One entry of the `results` list: the two success shapes appended by the
`extract` branch (lines 150-162) and the error shape appended by the `except`
clauses (lines 163-168). -/
inductive ResultRecord where
  | extractAttr (selector : String) (attr : String) (value : Option String)
  | extractText (selector : String) (text : String)
  | error (msg : String)
deriving DecidableEq

/-- The Playwright page, embedded as an environment: each operation maps the
page state to a new state and either a value or a raised exception.
`get_attribute` returns `none` when the attribute is missing on the element
(Playwright returns `None` there without raising). -/
structure PageEnv (σ : Type) where
  goto : σ → String → σ × Except PwErr Unit
  click : σ → String → σ × Except PwErr Unit
  wait_for_selector : σ → String → Int → σ × Except PwErr Unit
  fill : σ → String → String → σ × Except PwErr Unit
  typeKeys : σ → String → String → Int → σ × Except PwErr Unit
  wait_for_timeout : σ → Int → σ × Except PwErr Unit
  get_attribute : σ → String → String → σ × Except PwErr (Option String)
  inner_text : σ → String → σ × Except PwErr String

/-- Python repr of an optional string (used by the serialized-action text). -/
def reprOptStr : Option String → String
  | none => "None"
  | some s => "\x27" ++ s ++ "\x27"

/-- Python repr of an optional integer. -/
def reprOptInt : Option Int → String
  | none => "None"
  | some n => toString n

/-- Python repr of an optional boolean. -/
def reprOptBool : Option Bool → String
  | none => "None"
  | some true => "True"
  | some false => "False"

/-- Serialized action, standing for the `act.model_dump()` dictionary that the
source interpolates into error messages (`info` at lines 164-167). -/
def reprAction : BrowserAction → String
  | BrowserAction.NavigateAction u =>
    "\x7b\x27action\x27: \x27navigate\x27, \x27url\x27: Url(\x27" ++ strUrl u ++ "\x27)\x7d"
  | BrowserAction.ClickAction sel wf =>
    "\x7b\x27action\x27: \x27click\x27, \x27selector\x27: \x27" ++ sel ++
    "\x27, \x27wait_for\x27: " ++ reprOptStr wf ++ "\x7d"
  | BrowserAction.TypeAction sel text clear delay =>
    "\x7b\x27action\x27: \x27type\x27, \x27selector\x27: \x27" ++ sel ++
    "\x27, \x27text\x27: \x27" ++ text ++ "\x27, \x27clear\x27: " ++ reprOptBool clear ++
    ", \x27delay\x27: " ++ reprOptInt delay ++ "\x7d"
  | BrowserAction.WaitAction sel t =>
    "\x7b\x27action\x27: \x27wait\x27, \x27selector\x27: " ++ reprOptStr sel ++
    ", \x27timeout\x27: " ++ reprOptInt t ++ "\x7d"
  | BrowserAction.ExtractAction sel a =>
    "\x7b\x27action\x27: \x27extract\x27, \x27selector\x27: \x27" ++ sel ++
    "\x27, \x27attribute\x27: " ++ reprOptStr a ++ "\x7d"

/-- Error-record message built by the two `except` clauses: the timeout clause
and the generic clause differ only in the leading word. -/
def errMsgFor (e : PwErr) (act : BrowserAction) : String :=
  match e with
  | PwErr.timeout m => "Timeout on action " ++ reprAction act ++ ": " ++ m
  | PwErr.other m => "Error on action " ++ reprAction act ++ ": " ++ m

/-- The `type` action's typing phase: `page.type` with an explicit delay when
`act.delay is not None`, else `page.fill` (lines 138-141). -/
def typeBody {σ : Type} (env : PageEnv σ) (s : σ) (act : BrowserAction)
    (sel text : String) (delay : Option Int) : σ × Option ResultRecord × List PageCall :=
  match delay with
  | some d =>
    (match env.typeKeys s sel text d with
     | (s1, Except.ok _) => (s1, none, [PageCall.typeKeys sel text d])
     | (s1, Except.error e) =>
       (s1, some (ResultRecord.error (errMsgFor e act)), [PageCall.typeKeys sel text d]))
  | none =>
    (match env.fill s sel text with
     | (s1, Except.ok _) => (s1, none, [PageCall.fill sel text])
     | (s1, Except.error e) =>
       (s1, some (ResultRecord.error (errMsgFor e act)), [PageCall.fill sel text]))

/-- The `wait` action's sleep branch: `page.wait_for_timeout(act.timeout or
1000)` (line 146). -/
def sleepBody {σ : Type} (env : PageEnv σ) (s : σ) (act : BrowserAction)
    (t : Option Int) : σ × Option ResultRecord × List PageCall :=
  match env.wait_for_timeout s (pyOr t 1000) with
  | (s1, Except.ok _) => (s1, none, [PageCall.waitForTimeout (pyOr t 1000)])
  | (s1, Except.error e) =>
    (s1, some (ResultRecord.error (errMsgFor e act)), [PageCall.waitForTimeout (pyOr t 1000)])

/-- The `extract` action's text branch: `page.locator(...).inner_text()`
appended as a success record keyed by the selector (lines 157-162). -/
def innerTextBody {σ : Type} (env : PageEnv σ) (s : σ) (act : BrowserAction)
    (sel : String) : σ × Option ResultRecord × List PageCall :=
  match env.inner_text s sel with
  | (s1, Except.ok t) => (s1, some (ResultRecord.extractText sel t), [PageCall.innerText sel])
  | (s1, Except.error e) =>
    (s1, some (ResultRecord.error (errMsgFor e act)), [PageCall.innerText sel])

/-- One iteration of the engine's `for act in actions` loop (lines 122-168):
run a single action from page state `s`, catching any raised exception into a
single error record.  Returns the new page state, the result record this
action appends (if any), and the page operations it performed. -/
def runOne {σ : Type} (env : PageEnv σ) (timeout_ms : Int) (s : σ) :
    BrowserAction → σ × Option ResultRecord × List PageCall
  | act@(BrowserAction.NavigateAction u) =>
    (match env.goto s (strUrl u) with
     | (s1, Except.ok _) => (s1, none, [PageCall.goto (strUrl u)])
     | (s1, Except.error e) =>
       (s1, some (ResultRecord.error (errMsgFor e act)), [PageCall.goto (strUrl u)]))
  | act@(BrowserAction.ClickAction sel wf) =>
    (match env.click s sel with
     | (s1, Except.error e) =>
       (s1, some (ResultRecord.error (errMsgFor e act)), [PageCall.click sel])
     | (s1, Except.ok _) =>
       match wf with
       | some w =>
         if w == "" then (s1, none, [PageCall.click sel])
         else
           (match env.wait_for_selector s1 w timeout_ms with
            | (s2, Except.ok _) =>
              (s2, none, [PageCall.click sel, PageCall.waitForSelector w timeout_ms])
            | (s2, Except.error e) =>
              (s2, some (ResultRecord.error (errMsgFor e act)),
               [PageCall.click sel, PageCall.waitForSelector w timeout_ms]))
       | none => (s1, none, [PageCall.click sel]))
  | act@(BrowserAction.TypeAction sel text clear delay) =>
    if pyTruthyB clear then
      (match env.fill s sel "" with
       | (s1, Except.error (PwErr.other m)) =>
         (s1, some (ResultRecord.error (errMsgFor (PwErr.other m) act)), [PageCall.fill sel ""])
       | (s1, _) =>
         match typeBody env s1 act sel text delay with
         | (s2, rcd, tr) => (s2, rcd, PageCall.fill sel "" :: tr))
    else typeBody env s act sel text delay
  | act@(BrowserAction.WaitAction selOpt t) =>
    (match selOpt with
     | some sel =>
       if sel == "" then sleepBody env s act t
       else
         (match env.wait_for_selector s sel (pyOr t timeout_ms) with
          | (s1, Except.ok _) => (s1, none, [PageCall.waitForSelector sel (pyOr t timeout_ms)])
          | (s1, Except.error e) =>
            (s1, some (ResultRecord.error (errMsgFor e act)),
             [PageCall.waitForSelector sel (pyOr t timeout_ms)]))
     | none => sleepBody env s act t)
  | act@(BrowserAction.ExtractAction sel attrOpt) =>
    (match attrOpt with
     | some a =>
       if a == "" then innerTextBody env s act sel
       else
         (match env.get_attribute s sel a with
          | (s1, Except.ok v) =>
            (s1, some (ResultRecord.extractAttr sel a v), [PageCall.getAttribute sel a])
          | (s1, Except.error e) =>
            (s1, some (ResultRecord.error (errMsgFor e act)), [PageCall.getAttribute sel a]))
     | none => innerTextBody env s act sel)

/-- Embedding of `run_browser_actions`: execute the actions strictly in order
against one page, threading the page state, collecting the emitted result
records in order, and recording every page operation performed.  Browser
launch and close are not page operations and are not modelled (the source
opens the session before the loop and closes it after). -/
def run_browser_actions {σ : Type} (env : PageEnv σ) (timeout_ms : Int) :
    σ → List BrowserAction → σ × List ResultRecord × List PageCall
  | s, [] => (s, [], [])
  | s, a :: rest =>
    match runOne env timeout_ms s a with
    | (s1, rcd, tr) =>
      match run_browser_actions env timeout_ms s1 rest with
      | (s2, recs, trs) =>
        (s2, (match rcd with | some r => r :: recs | none => recs), tr ++ trs)

/-! ## Observation helpers for the engine -/

/-- Whether an `Except` is a success. -/
def exIsOk {ε α : Type} : Except ε α → Bool
  | Except.ok _ => true
  | Except.error _ => false

/-- Page state after one action (the state component of `runOne`). -/
def stepState {σ : Type} (env : PageEnv σ) (timeout_ms : Int) (s : σ) (a : BrowserAction) : σ :=
  (runOne env timeout_ms s a).1

/-- Typing-phase failure of a `type` action (spec-side classification). -/
def typeErrs {σ : Type} (env : PageEnv σ) (s : σ) (sel text : String) (delay : Option Int) : Bool :=
  match delay with
  | some d => !exIsOk (env.typeKeys s sel text d).2
  | none => !exIsOk (env.fill s sel text).2

/-- Spec-side classification, from the page primitives alone: does this action,
run from page state `s`, raise an exception that the engine must catch?  The
`type` clear phase follows the source: a timeout while clearing is swallowed,
any other clearing exception counts as the action's failure. -/
def errsOne {σ : Type} (env : PageEnv σ) (timeout_ms : Int) (s : σ) : BrowserAction → Bool
  | BrowserAction.NavigateAction u => !exIsOk (env.goto s (strUrl u)).2
  | BrowserAction.ClickAction sel wf =>
    (match env.click s sel with
     | (_, Except.error _) => true
     | (s1, Except.ok _) =>
       match wf with
       | some w => if w == "" then false else !exIsOk (env.wait_for_selector s1 w timeout_ms).2
       | none => false)
  | BrowserAction.TypeAction sel text clear delay =>
    if pyTruthyB clear then
      (match env.fill s sel "" with
       | (_, Except.error (PwErr.other _)) => true
       | (s1, _) => typeErrs env s1 sel text delay)
    else typeErrs env s sel text delay
  | BrowserAction.WaitAction selOpt t =>
    (match selOpt with
     | some sel =>
       if sel == "" then !exIsOk (env.wait_for_timeout s (pyOr t 1000)).2
       else !exIsOk (env.wait_for_selector s sel (pyOr t timeout_ms)).2
     | none => !exIsOk (env.wait_for_timeout s (pyOr t 1000)).2)
  | BrowserAction.ExtractAction sel attrOpt =>
    (match attrOpt with
     | some a =>
       if a == "" then !exIsOk (env.inner_text s sel).2
       else !exIsOk (env.get_attribute s sel a).2
     | none => !exIsOk (env.inner_text s sel).2)

/-- Spec-side classification: is this action an `extract` whose page primitive,
run from state `s`, succeeds?  Only such actions produce a success record. -/
def extractOk {σ : Type} (env : PageEnv σ) (s : σ) : BrowserAction → Bool
  | BrowserAction.ExtractAction sel attrOpt =>
    (match attrOpt with
     | some a =>
       if a == "" then exIsOk (env.inner_text s sel).2
       else exIsOk (env.get_attribute s sel a).2
     | none => exIsOk (env.inner_text s sel).2)
  | _ => false

/-- Whether an action is an `extract`. -/
def isExtract : BrowserAction → Bool
  | BrowserAction.ExtractAction _ _ => true
  | _ => false

/-- Selector of an `extract` action. -/
def selOf : BrowserAction → Option String
  | BrowserAction.ExtractAction sel _ => some sel
  | _ => none

/-- Selector key of a success record (`none` for error records). -/
def recSelector : ResultRecord → Option String
  | ResultRecord.extractAttr sel _ _ => some sel
  | ResultRecord.extractText sel _ => some sel
  | ResultRecord.error _ => none

/-- Whether a record is an error record. -/
def isErrorRec : ResultRecord → Bool
  | ResultRecord.error _ => true
  | _ => false

/-- Count, along the run's own page-state trajectory, the actions satisfying a
state-dependent predicate. -/
def countAlong {σ : Type} (env : PageEnv σ) (timeout_ms : Int) (p : σ → BrowserAction → Bool) :
    σ → List BrowserAction → Nat
  | _, [] => 0
  | s, a :: rest =>
    (if p s a then 1 else 0) + countAlong env timeout_ms p (stepState env timeout_ms s a) rest

/-- Concatenation, in action order, of the records each action emits along the
run's own page-state trajectory. -/
def emitAlong {σ : Type} (env : PageEnv σ) (timeout_ms : Int) :
    σ → List BrowserAction → List ResultRecord
  | _, [] => []
  | s, a :: rest =>
    (match (runOne env timeout_ms s a).2.1 with
     | some r => [r]
     | none => []) ++ emitAlong env timeout_ms (stepState env timeout_ms s a) rest

/-! ## Domain whitelist guard (`validate_navigate_domains`, lines 172-177) -/

/-- Python list repr of the allowed-domains list, for the error message. -/
def reprStrList (l : List String) : String :=
  "[" ++ String.intercalate ", " (l.map (fun s => "\x27" ++ s ++ "\x27")) ++ "]"

/-- Embedding of `validate_navigate_domains`: for every `NavigateAction` the
host component of its URL must occur in `allowed_domains`, otherwise a
`ValueError` is raised; non-navigate actions are skipped. -/
def validate_navigate_domains : List BrowserAction → List String → Except String Unit
  | [], _ => Except.ok ()
  | a :: rest, allowed =>
    match a with
    | BrowserAction.NavigateAction u =>
      if allowed.contains u.netloc then validate_navigate_domains rest allowed
      else
        Except.error ("Navigate domain \x27" ++ u.netloc ++ "\x27 not in allowed domains " ++
          reprStrList allowed)
    | _ => validate_navigate_domains rest allowed

/-- Modelled from the spec: the wiring of the Domain Whitelist Guard before
the Execution Engine.  No code under `src/` invokes
`validate_navigate_domains`; the sequencing "runs after schema validation and
before any execution — the sequence is rejected atomically; no partial
execution occurs" is spec text (§2 data flow, §4.4), present in the source
only as the commented example usage at the bottom of `browseruse_agent.py`.
When the guard rejects, the engine is never invoked, so no records and no page
operations are produced. -/
def validate_then_run {σ : Type} (acts : List BrowserAction) (allowed : List String)
    (env : PageEnv σ) (timeout_ms : Int) (s : σ) :
    Except String (List ResultRecord × List PageCall) :=
  match validate_navigate_domains acts allowed with
  | Except.error e => Except.error e
  | Except.ok _ => Except.ok (run_browser_actions env timeout_ms s acts).2

/-! ## Summarize step of `do_action` (`main.py`, lines 89-100) -/

/-- Embedding of step 7 of `do_action`: ask the generation client for a
summary inside `try`, falling back to the fixed string only when the client
raises.  A transport failure does not raise — `query_ollama` returns the
error-prefixed string — so it lands in the `Except.ok` arm. -/
def summarize_results (net : NetResult) : String :=
  match query_ollama net with
  | Except.ok s => s
  | Except.error _ => "Failed to summarize results."

/-- Embedding of the response assembly of `do_action` (line 100): the actions,
the execution results, and the summary produced by the summarize step. -/
def do_action_response (acts : List BrowserAction) (results : List ResultRecord)
    (net : NetResult) : List BrowserAction × List ResultRecord × String :=
  (acts, results, summarize_results net)

/-! ## Concrete environments for witnesses -/

/-- A page on which every operation succeeds, extracted text is `"TXT"` and
extracted attributes are `"VAL"`. -/
def unitEnv : PageEnv Unit where
  goto := fun s _ => (s, Except.ok ())
  click := fun s _ => (s, Except.ok ())
  wait_for_selector := fun s _ _ => (s, Except.ok ())
  fill := fun s _ _ => (s, Except.ok ())
  typeKeys := fun s _ _ _ => (s, Except.ok ())
  wait_for_timeout := fun s _ => (s, Except.ok ())
  get_attribute := fun s _ _ => (s, Except.ok (some "VAL"))
  inner_text := fun s _ => (s, Except.ok "TXT")

/-- A page like `unitEnv` except that every click raises a
`PlaywrightTimeoutError`. -/
def clickTimeoutEnv : PageEnv Unit where
  goto := fun s _ => (s, Except.ok ())
  click := fun s _ => (s, Except.error (PwErr.timeout "Timeout 30000ms exceeded"))
  wait_for_selector := fun s _ _ => (s, Except.ok ())
  fill := fun s _ _ => (s, Except.ok ())
  typeKeys := fun s _ _ _ => (s, Except.ok ())
  wait_for_timeout := fun s _ => (s, Except.ok ())
  get_attribute := fun s _ _ => (s, Except.ok (some "VAL"))
  inner_text := fun s _ => (s, Except.ok "TXT")

/-- Disallowed URL used in the C1 witness (spec scenario C). -/
def urlEvil : Url :=
  { scheme := "https", netloc := "evil.example", rest := "/" }

/-- Allowed URL used in the C4 witness (spec scenario A shape). -/
def urlBank : Url :=
  { scheme := "https", netloc := "examplebank.com", rest := "/loans" }

/-! ## Shared evaluation and characterisation lemmas -/

/-- A transport-error string never parses: it starts with `O`. -/
theorem parseActions_ollamaError (e : String) :
    parseActions ("Ollama API error: " ++ e) = Except.error "JSONDecodeError: Expecting value" := rfl

/-- Stripping the error string is not involved: the error branch of
`query_ollama` returns the message unstripped. -/
theorem query_ollama_reqError (e : String) :
    query_ollama (NetResult.reqError e) = Except.ok ("Ollama API error: " ++ e) := rfl

/-- The success branch of `query_ollama` strips the response field. -/
theorem query_ollama_ok (s : String) :
    query_ollama (NetResult.response (some s)) = Except.ok (strip s) := rfl

/-- Characterisation of the guard's accepting outcome: it accepts exactly when
every navigate host is in the allowed list. -/
theorem validate_ok_iff (acts : List BrowserAction) (allowed : List String) :
    validate_navigate_domains acts allowed = Except.ok () ↔
      ∀ u : Url, BrowserAction.NavigateAction u ∈ acts → u.netloc ∈ allowed := by
  induction acts with
  | nil => simp [validate_navigate_domains]
  | cons a rest ih =>
    cases a with
    | NavigateAction u =>
      by_cases hc : u.netloc ∈ allowed
      · simp [validate_navigate_domains, hc, ih]
      · simp [validate_navigate_domains, hc]
    | ClickAction sel wf => simp [validate_navigate_domains, ih]
    | TypeAction sel text clear delay => simp [validate_navigate_domains, ih]
    | WaitAction sel t => simp [validate_navigate_domains, ih]
    | ExtractAction sel a => simp [validate_navigate_domains, ih]

/-- The guard raises whenever some navigate host is outside the allowed list. -/
theorem validate_error_of_bad (acts : List BrowserAction) (allowed : List String) (u : Url)
    (hmem : BrowserAction.NavigateAction u ∈ acts) (hdom : u.netloc ∉ allowed) :
    ∃ e, validate_navigate_domains acts allowed = Except.error e := by
  cases h : validate_navigate_domains acts allowed with
  | error e => exact ⟨e, rfl⟩
  | ok v =>
    cases v
    exact absurd ((validate_ok_iff acts allowed).mp h u hmem) hdom

/-! ## Claim theorems -/

/-- C1: for every ActionSequence containing a Navigate action whose URL host
is not in the caller-supplied allowed set, the whitelist check raises a
`DomainViolation` (a `ValueError` in the source) and the Execution Engine is
never invoked: the guard-then-run pipeline rejects with that error, so zero
actions are executed, no result records are produced, and no browser
interaction occurs. -/
theorem claim_c1_domain_violation_blocks_execution (acts : List BrowserAction)
    (allowed : List String) (u : Url)
    (hmem : BrowserAction.NavigateAction u ∈ acts) (hdom : u.netloc ∉ allowed) :
    (∃ e, validate_navigate_domains acts allowed = Except.error e)
    ∧ ∀ (σ : Type) (env : PageEnv σ) (tm : Int) (s : σ),
        ∃ e, validate_then_run acts allowed env tm s = Except.error e := by
  obtain ⟨e, he⟩ := validate_error_of_bad acts allowed u hmem hdom
  refine ⟨⟨e, he⟩, fun σ env tm s => ⟨e, ?_⟩⟩
  simp [validate_then_run, he]

/-- Witness for C1 at the spec's scenario C: navigating to `evil.example`
under the policy `\x7bexamplebank.com\x7d`. -/
theorem claim_c1_witness :
    (BrowserAction.NavigateAction urlEvil ∈ [BrowserAction.NavigateAction urlEvil]
     ∧ urlEvil.netloc ∉ ["examplebank.com"])
    ∧ ((∃ e, validate_navigate_domains [BrowserAction.NavigateAction urlEvil]
          ["examplebank.com"] = Except.error e)
       ∧ ∀ (σ : Type) (env : PageEnv σ) (tm : Int) (s : σ),
           ∃ e, validate_then_run [BrowserAction.NavigateAction urlEvil]
             ["examplebank.com"] env tm s = Except.error e) :=
  ⟨⟨by decide, by decide⟩,
   claim_c1_domain_violation_blocks_execution _ _ urlEvil (by decide) (by decide)⟩

/-- C7: the Domain Whitelist Guard is a pure function of the sequence and the
policy.  In this embedding purity and absence of mutation hold by
construction (the function reads nothing but its two arguments and returns
without touching the sequence); the theorem states the two behavioural
consequences the claim names: running the guard twice in sequence yields
exactly the outcome of running it once, and the accept/reject outcome is
characterised by the sequence and policy alone (accept exactly when every
navigate host is allowed). -/
theorem claim_c7_guard_pure_idempotent (acts : List BrowserAction) (allowed : List String) :
    (validate_navigate_domains acts allowed).bind
        (fun _ => validate_navigate_domains acts allowed)
      = validate_navigate_domains acts allowed
    ∧ (validate_navigate_domains acts allowed = Except.ok () ↔
        ∀ u : Url, BrowserAction.NavigateAction u ∈ acts → u.netloc ∈ allowed) := by
  constructor
  · cases h : validate_navigate_domains acts allowed with
    | error e => rfl
    | ok v => cases v; simp [Except.bind, h]
  · exact validate_ok_iff acts allowed

/-- C9: the raw text `"[]"` validates on the first attempt into the empty
action sequence with no repair prompt issued (the attempt trace contains only
the original prompt), and executing the empty sequence returns the empty
result list with no page interaction. -/
theorem claim_c9_empty_array_plan (net : Nat → NetResult) (prompt : String) (N : Nat)
    (hN : 1 ≤ N) (h0 : net 0 = NetResult.response (some "[]")) :
    generate_browser_actions net prompt N = (Except.ok [], [(prompt, some "[]")])
    ∧ ∀ (σ : Type) (env : PageEnv σ) (tm : Int) (s : σ),
        run_browser_actions env tm s [] = (s, [], []) := by
  obtain ⟨M, rfl⟩ : ∃ M, N = M + 1 := ⟨N - 1, by omega⟩
  have hq : query_ollama (net 0) = Except.ok "[]" := by rw [h0]; rfl
  refine ⟨?_, fun σ env tm s => rfl⟩
  simp only [generate_browser_actions, hq, genLoop]
  rfl

/-- Witness for C9 with attempt bound 2. -/
theorem claim_c9_witness :
    (1 ≤ 2
     ∧ (fun _ : Nat => NetResult.response (some "[]")) 0 = NetResult.response (some "[]"))
    ∧ (generate_browser_actions (fun _ => NetResult.response (some "[]")) "PROMPT" 2
         = (Except.ok [], [("PROMPT", some "[]")])
       ∧ ∀ (σ : Type) (env : PageEnv σ) (tm : Int) (s : σ),
           run_browser_actions env tm s [] = (s, [], [])) :=
  ⟨⟨by omega, rfl⟩, claim_c9_empty_array_plan _ "PROMPT" 2 (by omega) rfl⟩

/-- C6 counterexample: when the summarization transport fails (network error
to the generation service), the caller does NOT receive the fixed fallback
string — `query_ollama` catches the `RequestException` itself and returns the
error-prefixed string, which the summarize step stores as the summary. -/
theorem claim_c6_counterexample :
    summarize_results (NetResult.reqError "connection refused")
      = "Ollama API error: connection refused"
    ∧ summarize_results (NetResult.reqError "connection refused")
        ≠ "Failed to summarize results." :=
  ⟨rfl, by decide⟩

/-- C6 as amended: a summarization failure is always non-fatal and never
touches the actions and results fields, but the summary text depends on how
the step fails: a transport failure (network error, non-2xx status, or
unparsable body — all `RequestException`s) yields the client's error-prefixed
string, and the fixed fallback `"Failed to summarize results."` is used only
when the client raises, i.e. when the parsed body lacks a string `"response"`
field; a successful call yields the stripped response text. -/
theorem claim_c6_amended_fallback (acts : List BrowserAction) (results : List ResultRecord)
    (net : NetResult) :
    (do_action_response acts results net).1 = acts
    ∧ (do_action_response acts results net).2.1 = results
    ∧ (∀ m, net = NetResult.reqError m →
        summarize_results net = "Ollama API error: " ++ m)
    ∧ (net = NetResult.response none →
        summarize_results net = "Failed to summarize results.")
    ∧ (∀ s, net = NetResult.response (some s) → summarize_results net = strip s) := by
  refine ⟨rfl, rfl, ?_, ?_, ?_⟩
  · rintro m rfl; rfl
  · rintro rfl; rfl
  · rintro s rfl; rfl

/-- Witness for the amended C6 at a concrete transport failure. -/
theorem claim_c6_witness :
    NetResult.reqError "boom" = NetResult.reqError "boom"
    ∧ summarize_results (NetResult.reqError "boom") = "Ollama API error: " ++ "boom" :=
  ⟨rfl, (claim_c6_amended_fallback [] [] (NetResult.reqError "boom")).2.2.1 "boom" rfl⟩

/-- C8 counterexample: a Wait action with no selector and an explicit timeout
of `0` does not sleep for the action's timeout duration — the engine executes
`page.wait_for_timeout(act.timeout or 1000)` and `0` is falsy in Python, so
it sleeps 1000 ms, not 0 ms. -/
theorem claim_c8_counterexample :
    (run_browser_actions unitEnv 30000 () [BrowserAction.WaitAction none (some 0)]).2.2
      = [PageCall.waitForTimeout 1000]
    ∧ (1000 : Int) ≠ 0 :=
  ⟨rfl, by decide⟩

/-- C8 as amended: for a Wait action with no selector the engine performs
exactly one `wait_for_timeout` call, sleeping `act.timeout or 1000`
milliseconds: the action's timeout when that is a non-zero integer, and
1000 ms when the timeout is explicitly `null` or `0`.  The timeout field does
default to 5000 ms when not supplied (so an omitted timeout sleeps 5000 ms),
as validation of `\x7b"action": "wait"\x7d` shows. -/
theorem claim_c8_amended_wait_sleep (σ : Type) (env : PageEnv σ) (tm : Int) (s : σ)
    (t : Option Int) :
    (run_browser_actions env tm s [BrowserAction.WaitAction none t]).2.2
      = [PageCall.waitForTimeout (pyOr t 1000)]
    ∧ (∀ n : Int, n ≠ 0 → pyOr (some n) 1000 = n)
    ∧ pyOr none 1000 = 1000
    ∧ pyOr (some 0) 1000 = 1000
    ∧ validateAction (Json.obj [("action", Json.str "wait")])
        = Except.ok (BrowserAction.WaitAction none (some 5000)) := by
  refine ⟨?_, ?_, rfl, rfl, rfl⟩
  · rcases h : env.wait_for_timeout s (pyOr t 1000) with ⟨s1, r⟩
    cases r <;> simp [run_browser_actions, runOne, sleepBody, h]
  · intro n hn
    simp [pyOr, hn]

/-- Witness for the amended C8 at a concrete positive timeout. -/
theorem claim_c8_witness :
    (run_browser_actions unitEnv 30000 () [BrowserAction.WaitAction none (some 7000)]).2.2
      = [PageCall.waitForTimeout (pyOr (some 7000) 1000)]
    ∧ (7000 : Int) ≠ 0
    ∧ pyOr (some 7000) 1000 = 7000 :=
  ⟨(claim_c8_amended_wait_sleep Unit unitEnv 30000 () (some 7000)).1,
   by decide,
   (claim_c8_amended_wait_sleep Unit unitEnv 30000 () (some 7000)).2.1 7000 (by decide)⟩

/-- C5: when the transport fails, the Generation Client returns the
error-prefixed string instead of raising (`Except.ok`, not `Except.error`),
the repair loop then attempts to parse that string and fails validation like
any schema-invalid response, and — given at least two attempts — it issues a
repair prompt that verbatim-embeds the transport-error string archived as the
previous raw output. -/
theorem claim_c5_transport_error_repaired (net : Nat → NetResult) (e : String)
    (prompt : String) (N : Nat) (h0 : net 0 = NetResult.reqError e) (hN : 2 ≤ N) :
    query_ollama (net 0) = Except.ok ("Ollama API error: " ++ e)
    ∧ (∃ m, parseActions ("Ollama API error: " ++ e) = Except.error m)
    ∧ ∃ r2 rest, (generate_browser_actions net prompt N).2
        = (prompt, some ("Ollama API error: " ++ e))
          :: (repairHeader ++ ("Ollama API error: " ++ e), r2) :: rest := by
  have hq : query_ollama (net 0) = Except.ok ("Ollama API error: " ++ e) := by rw [h0]; rfl
  refine ⟨hq, ⟨_, parseActions_ollamaError e⟩, ?_⟩
  obtain ⟨M, rfl⟩ : ∃ M, N = M + 2 := ⟨N - 2, by omega⟩
  simp only [generate_browser_actions, hq]
  simp only [genLoop, parseActions_ollamaError e]
  cases hq1 : query_ollama (net 1) with
  | error e1 => exact ⟨none, [], by simp [hq1]⟩
  | ok raw2 =>
    simp only [hq1]
    exact ⟨some raw2, _, rfl⟩

/-- Witness for C5 with a concrete connection error and attempt bound 2. -/
theorem claim_c5_witness :
    ((fun _ : Nat => NetResult.reqError "conn") 0 = NetResult.reqError "conn" ∧ 2 ≤ 2)
    ∧ (query_ollama ((fun _ : Nat => NetResult.reqError "conn") 0)
         = Except.ok ("Ollama API error: " ++ "conn")
       ∧ (∃ m, parseActions ("Ollama API error: " ++ "conn") = Except.error m)
       ∧ ∃ r2 rest,
           (generate_browser_actions (fun _ => NetResult.reqError "conn") "PROMPT" 2).2
             = ("PROMPT", some ("Ollama API error: " ++ "conn"))
               :: (repairHeader ++ ("Ollama API error: " ++ "conn"), r2) :: rest) :=
  ⟨⟨rfl, by omega⟩,
   claim_c5_transport_error_repaired (fun _ => NetResult.reqError "conn") "conn" "PROMPT" 2
     rfl (by omega)⟩

/-- C10: on a successful transport call the Generation Client returns the
service's response text stripped of leading and trailing whitespace, and the
raw output embedded downstream is that stripped text: in the two-attempt
failing scenario the repair prompt embeds `strip s` (not `s`) and the
terminal error message carries `strip s2` (not `s2`). -/
theorem claim_c10_stripped_raws (s s2 prompt : String)
    (hb1 : ∃ m, parseActions (strip s) = Except.error m)
    (hb2 : ∃ m, parseActions (strip s2) = Except.error m) :
    query_ollama (NetResult.response (some s)) = Except.ok (strip s)
    ∧ generate_browser_actions
        (fun i => if i == 0 then NetResult.response (some s) else NetResult.response (some s2))
        prompt 2
      = (Except.error (GenError.generationFailed (failMsg 2 (strip s2))),
         [(prompt, some (strip s)), (repairHeader ++ strip s, some (strip s2))]) := by
  obtain ⟨m1, h1⟩ := hb1
  obtain ⟨m2, h2⟩ := hb2
  refine ⟨rfl, ?_⟩
  simp [generate_browser_actions, genLoop, query_ollama, h1, h2]

/-- Witness for C10: a padded non-JSON response is stripped before being
embedded in the repair prompt and the terminal error. -/
theorem claim_c10_witness :
    query_ollama (NetResult.response (some "  not json  ")) = Except.ok (strip "  not json  ")
    ∧ generate_browser_actions
        (fun i => if i == 0 then NetResult.response (some "  not json  ")
                  else NetResult.response (some "oops"))
        "PROMPT" 2
      = (Except.error (GenError.generationFailed (failMsg 2 (strip "oops"))),
         [("PROMPT", some (strip "  not json  ")),
          (repairHeader ++ strip "  not json  ", some (strip "oops"))]) :=
  claim_c10_stripped_raws "  not json  " "oops" "PROMPT" ⟨_, rfl⟩ ⟨_, rfl⟩

/-- One unfolding step of the repair loop when at least two iterations
remain: on a validation failure it sends the repair prompt embedding the raw
output that just failed predictably. -/
theorem genLoop_cons_eq (net : Nat → NetResult) (maxA k : Nat) (raw : String) (rem : Nat) :
    genLoop net maxA k raw (rem + 2)
      = match parseActions raw with
        | Except.ok acts => (Except.ok acts, [])
        | Except.error _ =>
          match query_ollama (net k) with
          | Except.error e => (Except.error (GenError.uncaught e), [(repairHeader ++ raw, none)])
          | Except.ok raw2 =>
            ((genLoop net maxA (k + 1) raw2 (rem + 1)).1,
             (repairHeader ++ raw, some raw2) :: (genLoop net maxA (k + 1) raw2 (rem + 1)).2) := rfl

/-- When every raw output fails validation, the repair loop exhausts its
remaining iterations, issuing one repair prompt per iteration (each embedding
the raw output that just failed) and failing with the last raw output. -/
theorem genLoop_exhausts (net : Nat → NetResult) (raws : Nat → String) (N : Nat)
    (hok : ∀ i, i < N → query_ollama (net i) = Except.ok (raws i))
    (hbad : ∀ i, i < N → ∃ m, parseActions (raws i) = Except.error m) :
    ∀ rem k, rem + k + 1 = N →
      genLoop net N (k + 1) (raws k) (rem + 1)
        = (Except.error (GenError.generationFailed (failMsg N (raws (N - 1)))),
           (List.range rem).map
             (fun i => (repairHeader ++ raws (k + i), some (raws (k + i + 1))))) := by
  intro rem
  induction rem with
  | zero =>
    intro k hk
    obtain ⟨m, hm⟩ := hbad k (by omega)
    have hkN : k = N - 1 := by omega
    subst hkN
    simp [genLoop, hm]
  | succ r ih =>
    intro k hk
    obtain ⟨m, hm⟩ := hbad k (by omega)
    have hq := hok (k + 1) (by omega)
    have hrec := ih (k + 1) (by omega)
    have hstep : r + 1 + 1 = r + 2 := rfl
    rw [hstep, genLoop_cons_eq net N (k + 1) (raws k) r]
    simp only [hm, hq, hrec]
    rw [List.range_succ_eq_map]
    simp only [List.map_cons, List.map_map, Nat.add_zero]
    refine congrArg _ (congrArg _ ?_)
    refine List.map_congr_left (fun i _ => ?_)
    simp only [Function.comp_apply]
    have h1 : k + (i + 1) = k + 1 + i := by omega
    rw [h1]

/-- C2: for every response sequence none of whose raw outputs parses and
validates, the repair loop with attempt bound `N ≥ 1` performs exactly `N`
generation attempts — the original prompt plus exactly `N - 1` repair
prompts, the `i`-th repair prompt verbatim-embedding (after the fixed header)
the immediately preceding raw output — and the terminal `GenerationFailed`
error carries the last raw output, not the original one. -/
theorem claim_c2_repair_loop_exhaustion (net : Nat → NetResult) (raws : Nat → String)
    (prompt : String) (N : Nat) (hN : 1 ≤ N)
    (hok : ∀ i, i < N → query_ollama (net i) = Except.ok (raws i))
    (hbad : ∀ i, i < N → ∃ m, parseActions (raws i) = Except.error m) :
    generate_browser_actions net prompt N
      = (Except.error (GenError.generationFailed (failMsg N (raws (N - 1)))),
         (prompt, some (raws 0))
           :: (List.range (N - 1)).map
                (fun i => (repairHeader ++ raws i, some (raws (i + 1))))) := by
  obtain ⟨M, rfl⟩ : ∃ M, N = M + 1 := ⟨N - 1, by omega⟩
  have h0 := hok 0 (by omega)
  have hmain := genLoop_exhausts net raws (M + 1) hok hbad M 0 (by omega)
  simp only [Nat.zero_add, Nat.add_sub_cancel] at hmain ⊢
  simp only [generate_browser_actions, h0, hmain]

/-- Witness for C2: attempt bound 2 with every response the unparsable text
`"bad"` — one repair prompt embedding `"bad"`, terminal failure carrying
`"bad"` (spec scenario B shape). -/
theorem claim_c2_witness :
    (1 ≤ 2
     ∧ (∀ i, i < 2 →
         query_ollama ((fun _ : Nat => NetResult.response (some "bad")) i)
           = Except.ok ((fun _ : Nat => "bad") i))
     ∧ (∀ i, i < 2 → ∃ m, parseActions ((fun _ : Nat => "bad") i) = Except.error m))
    ∧ generate_browser_actions (fun _ => NetResult.response (some "bad")) "PROMPT" 2
        = (Except.error (GenError.generationFailed (failMsg 2 "bad")),
           [("PROMPT", some "bad"), (repairHeader ++ "bad", some "bad")]) := by
  refine ⟨⟨by omega, fun i _ => rfl, fun i _ => ⟨_, rfl⟩⟩, ?_⟩
  have h := claim_c2_repair_loop_exhaustion (fun _ => NetResult.response (some "bad"))
    (fun _ => "bad") "PROMPT" 2 (by omega) (fun i _ => rfl) (fun i _ => ⟨_, rfl⟩)
  simpa using h

/-- Every error-record message carries the serialized action between a
descriptive head and the exception text. -/
theorem errMsgFor_shape (e : PwErr) (act : BrowserAction) :
    ∃ p q, errMsgFor e act = p ++ reprAction act ++ q := by
  cases e with
  | timeout m =>
    exact ⟨"Timeout on action ", ": " ++ m, by simp [errMsgFor, String.append_assoc]⟩
  | other m =>
    exact ⟨"Error on action ", ": " ++ m, by simp [errMsgFor, String.append_assoc]⟩

/-- Emission of the sleep branch of a `wait` action: an error record exactly
when the sleep primitive raises, nothing otherwise. -/
theorem sleepBody_classify {σ : Type} (env : PageEnv σ) (s : σ) (act : BrowserAction)
    (t : Option Int) :
    ((!exIsOk (env.wait_for_timeout s (pyOr t 1000)).2) = true
       ∧ ∃ p q, (sleepBody env s act t).2.1
           = some (ResultRecord.error (p ++ reprAction act ++ q)))
    ∨ ((!exIsOk (env.wait_for_timeout s (pyOr t 1000)).2) = false
       ∧ (sleepBody env s act t).2.1 = none) := by
  rcases h : env.wait_for_timeout s (pyOr t 1000) with ⟨s1, r⟩
  cases r with
  | error e =>
    obtain ⟨p, q, hpq⟩ := errMsgFor_shape e act
    exact Or.inl ⟨by simp [h, exIsOk], p, q, by simp [sleepBody, h, hpq]⟩
  | ok v => exact Or.inr ⟨by simp [h, exIsOk], by simp [sleepBody, h]⟩

/-- Emission of the typing phase of a `type` action. -/
theorem typeBody_classify {σ : Type} (env : PageEnv σ) (s : σ) (act : BrowserAction)
    (sel text : String) (delay : Option Int) :
    (typeErrs env s sel text delay = true
       ∧ ∃ p q, (typeBody env s act sel text delay).2.1
           = some (ResultRecord.error (p ++ reprAction act ++ q)))
    ∨ (typeErrs env s sel text delay = false
       ∧ (typeBody env s act sel text delay).2.1 = none) := by
  cases delay with
  | some d =>
    rcases h : env.typeKeys s sel text d with ⟨s1, r⟩
    cases r with
    | error e =>
      obtain ⟨p, q, hpq⟩ := errMsgFor_shape e act
      exact Or.inl ⟨by simp [typeErrs, h, exIsOk], p, q, by simp [typeBody, h, hpq]⟩
    | ok v => exact Or.inr ⟨by simp [typeErrs, h, exIsOk], by simp [typeBody, h]⟩
  | none =>
    rcases h : env.fill s sel text with ⟨s1, r⟩
    cases r with
    | error e =>
      obtain ⟨p, q, hpq⟩ := errMsgFor_shape e act
      exact Or.inl ⟨by simp [typeErrs, h, exIsOk], p, q, by simp [typeBody, h, hpq]⟩
    | ok v => exact Or.inr ⟨by simp [typeErrs, h, exIsOk], by simp [typeBody, h]⟩

/-- Emission of the text branch of an `extract` action: always exactly one
record — a success record with the extracted text when the primitive
succeeds, an error record when it raises. -/
theorem innerTextBody_classify {σ : Type} (env : PageEnv σ) (s : σ) (act : BrowserAction)
    (sel : String) :
    (exIsOk (env.inner_text s sel).2 = false
       ∧ ∃ p q, (innerTextBody env s act sel).2.1
           = some (ResultRecord.error (p ++ reprAction act ++ q)))
    ∨ (exIsOk (env.inner_text s sel).2 = true
       ∧ ∃ t, (innerTextBody env s act sel).2.1 = some (ResultRecord.extractText sel t)) := by
  rcases h : env.inner_text s sel with ⟨s1, r⟩
  cases r with
  | error e =>
    obtain ⟨p, q, hpq⟩ := errMsgFor_shape e act
    exact Or.inl ⟨by simp [h, exIsOk], p, q, by simp [innerTextBody, h, hpq]⟩
  | ok t => exact Or.inr ⟨by simp [h, exIsOk], t, by simp [innerTextBody, h]⟩

/-- Per-action emission trichotomy, grounding the engine's record emission in
the page primitives: an erroring action emits exactly one error record
carrying the serialized action, a succeeding `extract` emits exactly one
success record keyed by its selector, and every other succeeding action emits
nothing. -/
theorem runOne_classify {σ : Type} (env : PageEnv σ) (tm : Int) (s : σ) (a : BrowserAction) :
    (errsOne env tm s a = true ∧ extractOk env s a = false
       ∧ ∃ p q, (runOne env tm s a).2.1
           = some (ResultRecord.error (p ++ reprAction a ++ q)))
    ∨ (errsOne env tm s a = false ∧ extractOk env s a = true
       ∧ ∃ r, (runOne env tm s a).2.1 = some r
           ∧ isErrorRec r = false ∧ recSelector r = selOf a)
    ∨ (errsOne env tm s a = false ∧ extractOk env s a = false
       ∧ (runOne env tm s a).2.1 = none) := by
  cases a with
  | NavigateAction u =>
    rcases h : env.goto s (strUrl u) with ⟨s1, r⟩
    cases r with
    | error e =>
      obtain ⟨p, q, hpq⟩ := errMsgFor_shape e (BrowserAction.NavigateAction u)
      exact Or.inl ⟨by simp [errsOne, h, exIsOk], rfl, p, q, by simp [runOne, h, hpq]⟩
    | ok v =>
      exact Or.inr (Or.inr ⟨by simp [errsOne, h, exIsOk], rfl, by simp [runOne, h]⟩)
  | ClickAction sel wf =>
    rcases h1 : env.click s sel with ⟨s1, r1⟩
    cases r1 with
    | error e =>
      obtain ⟨p, q, hpq⟩ := errMsgFor_shape e (BrowserAction.ClickAction sel wf)
      exact Or.inl ⟨by simp [errsOne, h1], rfl, p, q, by simp [runOne, h1, hpq]⟩
    | ok v =>
      cases wf with
      | none =>
        exact Or.inr (Or.inr ⟨by simp [errsOne, h1], rfl, by simp [runOne, h1]⟩)
      | some w =>
        by_cases hw : w = ""
        · subst hw
          exact Or.inr (Or.inr ⟨by simp [errsOne, h1], rfl, by simp [runOne, h1]⟩)
        · have hw2 : (w == "") = false := by simp [hw]
          rcases h2 : env.wait_for_selector s1 w tm with ⟨s2, r2⟩
          cases r2 with
          | error e =>
            obtain ⟨p, q, hpq⟩ := errMsgFor_shape e (BrowserAction.ClickAction sel (some w))
            exact Or.inl ⟨by simp [errsOne, h1, hw2, h2, exIsOk], rfl, p, q,
              by simp [runOne, h1, hw2, h2, hpq]⟩
          | ok v2 =>
            exact Or.inr (Or.inr ⟨by simp [errsOne, h1, hw2, h2, exIsOk], rfl,
              by simp [runOne, h1, hw2, h2]⟩)
  | TypeAction sel text clear delay =>
    by_cases hcl : pyTruthyB clear = true
    · rcases hf : env.fill s sel "" with ⟨s1, rf⟩
      rcases ht : typeBody env s1 (BrowserAction.TypeAction sel text clear delay)
          sel text delay with ⟨s2, rcd, tr⟩
      have hcls := typeBody_classify env s1 (BrowserAction.TypeAction sel text clear delay)
        sel text delay
      rw [ht] at hcls
      cases rf with
      | error e =>
        cases e with
        | other m =>
          exact Or.inl ⟨by simp [errsOne, hcl, hf], rfl, "Error on action ", ": " ++ m,
            by simp [runOne, hcl, hf, errMsgFor, String.append_assoc]⟩
        | timeout m =>
          rcases hcls with ⟨he, p, q, hemit⟩ | ⟨he, hemit⟩
          · exact Or.inl ⟨by simp [errsOne, hcl, hf, he], rfl, p, q,
              by simp only [runOne, hcl, if_true, hf, ht]; simpa using hemit⟩
          · exact Or.inr (Or.inr ⟨by simp [errsOne, hcl, hf, he], rfl,
              by simp only [runOne, hcl, if_true, hf, ht]; simpa using hemit⟩)
      | ok v =>
        rcases hcls with ⟨he, p, q, hemit⟩ | ⟨he, hemit⟩
        · exact Or.inl ⟨by simp [errsOne, hcl, hf, he], rfl, p, q,
            by simp only [runOne, hcl, if_true, hf, ht]; simpa using hemit⟩
        · exact Or.inr (Or.inr ⟨by simp [errsOne, hcl, hf, he], rfl,
            by simp only [runOne, hcl, if_true, hf, ht]; simpa using hemit⟩)
    · have hcl2 : pyTruthyB clear = false := by simpa using hcl
      have hcls := typeBody_classify env s (BrowserAction.TypeAction sel text clear delay)
        sel text delay
      rcases hcls with ⟨he, p, q, hemit⟩ | ⟨he, hemit⟩
      · exact Or.inl ⟨by simp [errsOne, hcl2, he], rfl, p, q,
          by simpa [runOne, hcl2] using hemit⟩
      · exact Or.inr (Or.inr ⟨by simp [errsOne, hcl2, he], rfl,
          by simpa [runOne, hcl2] using hemit⟩)
  | WaitAction selOpt t =>
    cases selOpt with
    | none =>
      rcases sleepBody_classify env s (BrowserAction.WaitAction none t) t with
        ⟨he, p, q, hemit⟩ | ⟨he, hemit⟩
      · exact Or.inl ⟨by simpa [errsOne] using he, rfl, p, q,
          by simpa [runOne] using hemit⟩
      · exact Or.inr (Or.inr ⟨by simpa [errsOne] using he, rfl,
          by simpa [runOne] using hemit⟩)
    | some sel =>
      by_cases hsel : sel = ""
      · subst hsel
        rcases sleepBody_classify env s (BrowserAction.WaitAction (some "") t) t with
          ⟨he, p, q, hemit⟩ | ⟨he, hemit⟩
        · exact Or.inl ⟨by simpa [errsOne] using he, rfl, p, q,
            by simpa [runOne] using hemit⟩
        · exact Or.inr (Or.inr ⟨by simpa [errsOne] using he, rfl,
            by simpa [runOne] using hemit⟩)
      · have hsel2 : (sel == "") = false := by simp [hsel]
        rcases h : env.wait_for_selector s sel (pyOr t tm) with ⟨s1, r⟩
        cases r with
        | error e =>
          obtain ⟨p, q, hpq⟩ := errMsgFor_shape e (BrowserAction.WaitAction (some sel) t)
          exact Or.inl ⟨by simp [errsOne, hsel2, h, exIsOk], rfl, p, q,
            by simp [runOne, hsel2, h, hpq]⟩
        | ok v =>
          exact Or.inr (Or.inr ⟨by simp [errsOne, hsel2, h, exIsOk], rfl,
            by simp [runOne, hsel2, h]⟩)
  | ExtractAction sel attrOpt =>
    cases attrOpt with
    | none =>
      rcases innerTextBody_classify env s (BrowserAction.ExtractAction sel none) sel with
        ⟨he, p, q, hemit⟩ | ⟨he, t, hemit⟩
      · exact Or.inl ⟨by simp [errsOne, he], by simp [extractOk, he],
          p, q, by simpa [runOne] using hemit⟩
      · exact Or.inr (Or.inl ⟨by simp [errsOne, he], by simp [extractOk, he],
          ResultRecord.extractText sel t, by simpa [runOne] using hemit, rfl, rfl⟩)
    | some a2 =>
      by_cases ha : a2 = ""
      · subst ha
        rcases innerTextBody_classify env s (BrowserAction.ExtractAction sel (some "")) sel with
          ⟨he, p, q, hemit⟩ | ⟨he, t, hemit⟩
        · exact Or.inl ⟨by simp [errsOne, he], by simp [extractOk, he],
            p, q, by simpa [runOne] using hemit⟩
        · exact Or.inr (Or.inl ⟨by simp [errsOne, he], by simp [extractOk, he],
            ResultRecord.extractText sel t, by simpa [runOne] using hemit, rfl, rfl⟩)
      · have ha2 : (a2 == "") = false := by simp [ha]
        rcases h : env.get_attribute s sel a2 with ⟨s1, r⟩
        cases r with
        | error e =>
          obtain ⟨p, q, hpq⟩ := errMsgFor_shape e (BrowserAction.ExtractAction sel (some a2))
          exact Or.inl ⟨by simp [errsOne, ha2, h, exIsOk], by simp [extractOk, ha2, h, exIsOk],
            p, q, by simp [runOne, ha2, h, hpq]⟩
        | ok v =>
          exact Or.inr (Or.inl ⟨by simp [errsOne, ha2, h, exIsOk],
            by simp [extractOk, ha2, h, exIsOk],
            ResultRecord.extractAttr sel a2 v, by simp [runOne, ha2, h], rfl, rfl⟩)

/-- The engine's result list is exactly the in-order concatenation of the
per-action emissions along the run's own page-state trajectory. -/
theorem run_records_eq_emitAlong {σ : Type} (env : PageEnv σ) (tm : Int) :
    ∀ (acts : List BrowserAction) (s : σ),
      (run_browser_actions env tm s acts).2.1 = emitAlong env tm s acts := by
  intro acts
  induction acts with
  | nil => intro s; rfl
  | cons a rest ih =>
    intro s
    rcases hr : runOne env tm s a with ⟨s1, rcd, tr⟩
    rcases hrest : run_browser_actions env tm s1 rest with ⟨s2, recs, trs⟩
    have hstep : stepState env tm s a = s1 := by simp [stepState, hr]
    have ih1 := ih s1
    rw [hrest] at ih1
    simp only at ih1
    cases rcd with
    | some r => simp [run_browser_actions, emitAlong, hr, hrest, hstep, ih1]
    | none => simp [run_browser_actions, emitAlong, hr, hrest, hstep, ih1]

/-- The emission list never exceeds the action count: each action emits at
most one record. -/
theorem emitAlong_length_le {σ : Type} (env : PageEnv σ) (tm : Int) :
    ∀ (acts : List BrowserAction) (s : σ),
      (emitAlong env tm s acts).length ≤ acts.length := by
  intro acts
  induction acts with
  | nil => intro s; simp [emitAlong]
  | cons a rest ih =>
    intro s
    have h1 := ih (stepState env tm s a)
    simp only [emitAlong, List.length_append, List.length_cons]
    cases h : (runOne env tm s a).2.1 <;> simp [h] <;> omega

/-- The engine's record count is the number of extracts that succeed plus the
number of actions that error, counted along the run's state trajectory. -/
theorem run_length_eq {σ : Type} (env : PageEnv σ) (tm : Int) :
    ∀ (acts : List BrowserAction) (s : σ),
      (run_browser_actions env tm s acts).2.1.length
        = countAlong env tm (fun s2 a => extractOk env s2 a) s acts
          + countAlong env tm (fun s2 a => errsOne env tm s2 a) s acts := by
  intro acts
  induction acts with
  | nil => intro s; rfl
  | cons a rest ih =>
    intro s
    rcases hr : runOne env tm s a with ⟨s1, rcd, tr⟩
    rcases hrest : run_browser_actions env tm s1 rest with ⟨s2, recs, trs⟩
    have hstep : stepState env tm s a = s1 := by simp [stepState, hr]
    have ih1 := ih s1
    rw [hrest] at ih1
    simp only at ih1
    rcases runOne_classify env tm s a with
      ⟨he, hx, p, q, hemit⟩ | ⟨he, hx, r, hemit, _, _⟩ | ⟨he, hx, hemit⟩ <;>
      rw [hr] at hemit <;> simp only at hemit <;>
      simp [run_browser_actions, countAlong, hr, hrest, hstep, he, hx, hemit, ih1] <;>
      omega

/-- Records and traces of a concatenated action list decompose at the split
point, with the tail run starting from the head run's final page state. -/
theorem run_append {σ : Type} (env : PageEnv σ) (tm : Int) :
    ∀ (xs ys : List BrowserAction) (s : σ),
      run_browser_actions env tm s (xs ++ ys)
        = ((run_browser_actions env tm (run_browser_actions env tm s xs).1 ys).1,
           (run_browser_actions env tm s xs).2.1
             ++ (run_browser_actions env tm (run_browser_actions env tm s xs).1 ys).2.1,
           (run_browser_actions env tm s xs).2.2
             ++ (run_browser_actions env tm (run_browser_actions env tm s xs).1 ys).2.2) := by
  intro xs
  induction xs with
  | nil =>
    intro ys s
    rcases h : run_browser_actions env tm s ys with ⟨s2, recs, trs⟩
    simp [run_browser_actions, h]
  | cons x xs ih =>
    intro ys s
    rcases hr : runOne env tm s x with ⟨s1, rcd, tr⟩
    have hx := ih ys s1
    rcases h1 : run_browser_actions env tm s1 xs with ⟨sA, recsA, trsA⟩
    rw [h1] at hx
    simp only at hx
    rcases h2 : run_browser_actions env tm sA ys with ⟨sB, recsB, trsB⟩
    rw [h2] at hx
    simp only at hx
    cases rcd with
    | some r =>
      simp [run_browser_actions, List.cons_append, hr, hx, h1, h2, List.append_assoc]
    | none =>
      simp [run_browser_actions, List.cons_append, hr, hx, h1, h2, List.append_assoc]

/-- An action classified as erroring emits exactly one error record whose
message embeds the serialized action. -/
theorem errsOne_emits {σ : Type} (env : PageEnv σ) (tm : Int) (s : σ) (a : BrowserAction)
    (h : errsOne env tm s a = true) :
    ∃ p q, (runOne env tm s a).2.1 = some (ResultRecord.error (p ++ reprAction a ++ q)) := by
  rcases runOne_classify env tm s a with
    ⟨_, _, p, q, hemit⟩ | ⟨he, _, _⟩ | ⟨he, _, _⟩
  · exact ⟨p, q, hemit⟩
  · rw [h] at he; cases he
  · rw [h] at he; cases he

/-- C3: for every validated ActionSequence and page behaviour, the engine's
result list is the in-order concatenation of per-action emissions (record
order matches action order), its length equals the number of Extract actions
that succeeded plus the number of actions that errored — hence is at most the
action count — every successful Extract emits exactly one success record
keyed by its selector, and successful non-Extract actions emit no record. -/
theorem claim_c3_result_record_accounting (σ : Type) (env : PageEnv σ) (tm : Int) (s : σ)
    (acts : List BrowserAction) :
    (run_browser_actions env tm s acts).2.1 = emitAlong env tm s acts
    ∧ (run_browser_actions env tm s acts).2.1.length
        = countAlong env tm (fun s2 a => extractOk env s2 a) s acts
          + countAlong env tm (fun s2 a => errsOne env tm s2 a) s acts
    ∧ (run_browser_actions env tm s acts).2.1.length ≤ acts.length
    ∧ (∀ (s2 : σ) (a : BrowserAction), extractOk env s2 a = true →
        ∃ r, (runOne env tm s2 a).2.1 = some r
          ∧ isErrorRec r = false ∧ recSelector r = selOf a)
    ∧ (∀ (s2 : σ) (a : BrowserAction), isExtract a = false → errsOne env tm s2 a = false →
        (runOne env tm s2 a).2.1 = none) := by
  refine ⟨run_records_eq_emitAlong env tm acts s, run_length_eq env tm acts s,
    ?_, ?_, ?_⟩
  · rw [run_records_eq_emitAlong env tm acts s]
    exact emitAlong_length_le env tm acts s
  · intro s2 a hx
    rcases runOne_classify env tm s2 a with
      ⟨_, hx2, _⟩ | ⟨_, _, r, hemit, hner, hsel⟩ | ⟨_, hx2, _⟩
    · rw [hx] at hx2; cases hx2
    · exact ⟨r, hemit, hner, hsel⟩
    · rw [hx] at hx2; cases hx2
  · intro s2 a hne he
    rcases runOne_classify env tm s2 a with
      ⟨he2, _, _⟩ | ⟨_, hx2, _⟩ | ⟨_, _, hemit⟩
    · rw [he] at he2; cases he2
    · cases a <;> simp_all [extractOk, isExtract]
    · exact hemit

/-- Witness for C3 on a concrete two-action sequence with a succeeding
extract. -/
theorem claim_c3_witness :
    (extractOk unitEnv () (BrowserAction.ExtractAction "#rate" none) = true
     ∧ ∃ r, (runOne unitEnv 30000 () (BrowserAction.ExtractAction "#rate" none)).2.1 = some r
         ∧ isErrorRec r = false ∧ recSelector r = selOf (BrowserAction.ExtractAction "#rate" none))
    ∧ (run_browser_actions unitEnv 30000 ()
        [BrowserAction.NavigateAction urlBank, BrowserAction.ExtractAction "#rate" none]).2.1
      = [ResultRecord.extractText "#rate" "TXT"] :=
  ⟨⟨rfl, (claim_c3_result_record_accounting Unit unitEnv 30000 ()
      [BrowserAction.NavigateAction urlBank, BrowserAction.ExtractAction "#rate" none]).2.2.2.1
      () (BrowserAction.ExtractAction "#rate" none) rfl⟩, rfl⟩

/-- C4: when an action errors, the engine catches it at single-action
granularity — the run of `pre ++ [a] ++ post` emits exactly the records of
`pre`, then exactly one error record for `a` whose message carries a
description and the serialized action, then exactly the records of `post`:
the remaining actions still execute. -/
theorem claim_c4_failure_isolation (σ : Type) (env : PageEnv σ) (tm : Int) (s : σ)
    (pre post : List BrowserAction) (a : BrowserAction)
    (h : errsOne env tm (run_browser_actions env tm s pre).1 a = true) :
    ∃ p q,
      (run_browser_actions env tm s (pre ++ a :: post)).2.1
        = (run_browser_actions env tm s pre).2.1
          ++ ResultRecord.error (p ++ reprAction a ++ q)
             :: (run_browser_actions env tm
                  (stepState env tm (run_browser_actions env tm s pre).1 a) post).2.1 := by
  obtain ⟨p, q, hemit⟩ := errsOne_emits env tm (run_browser_actions env tm s pre).1 a h
  refine ⟨p, q, ?_⟩
  rw [run_append env tm pre (a :: post) s]
  simp only []
  rcases hr : runOne env tm (run_browser_actions env tm s pre).1 a with ⟨s1, rcd, tr⟩
  rw [hr] at hemit
  simp only at hemit
  have hstep : stepState env tm (run_browser_actions env tm s pre).1 a = s1 := by
    simp [stepState, hr]
  rcases hrest : run_browser_actions env tm s1 post with ⟨s2, recs, trs⟩
  simp [run_browser_actions, hr, hemit, hstep, hrest]

/-- Witness for C4 at the spec's fault-isolation scenario: navigate, then a
click that raises a timeout, then an extract — one error record for the
click, and the extract still emits its success record. -/
theorem claim_c4_witness :
    errsOne clickTimeoutEnv 30000
        ((run_browser_actions clickTimeoutEnv 30000 () [BrowserAction.NavigateAction urlBank]).1)
        (BrowserAction.ClickAction "#apply" none) = true
    ∧ (∃ p q,
        (run_browser_actions clickTimeoutEnv 30000 ()
          ([BrowserAction.NavigateAction urlBank]
            ++ BrowserAction.ClickAction "#apply" none :: [BrowserAction.ExtractAction "#rate" none])).2.1
          = (run_browser_actions clickTimeoutEnv 30000 () [BrowserAction.NavigateAction urlBank]).2.1
            ++ ResultRecord.error (p ++ reprAction (BrowserAction.ClickAction "#apply" none) ++ q)
               :: (run_browser_actions clickTimeoutEnv 30000
                    (stepState clickTimeoutEnv 30000
                      ((run_browser_actions clickTimeoutEnv 30000 ()
                        [BrowserAction.NavigateAction urlBank]).1)
                      (BrowserAction.ClickAction "#apply" none))
                    [BrowserAction.ExtractAction "#rate" none]).2.1)
    ∧ (run_browser_actions clickTimeoutEnv 30000 ()
        [BrowserAction.NavigateAction urlBank, BrowserAction.ClickAction "#apply" none,
         BrowserAction.ExtractAction "#rate" none]).2.1
      = [ResultRecord.error (errMsgFor (PwErr.timeout "Timeout 30000ms exceeded")
           (BrowserAction.ClickAction "#apply" none)),
         ResultRecord.extractText "#rate" "TXT"] :=
  ⟨rfl,
   claim_c4_failure_isolation Unit clickTimeoutEnv 30000 ()
     [BrowserAction.NavigateAction urlBank] [BrowserAction.ExtractAction "#rate" none]
     (BrowserAction.ClickAction "#apply" none) rfl,
   rfl⟩

/-- Witness for C7 at a concrete accepted sequence and policy. -/
theorem claim_c7_witness :
    ((validate_navigate_domains [BrowserAction.NavigateAction urlBank]
        ["examplebank.com"]).bind
          (fun _ => validate_navigate_domains [BrowserAction.NavigateAction urlBank]
            ["examplebank.com"])
      = validate_navigate_domains [BrowserAction.NavigateAction urlBank] ["examplebank.com"])
    ∧ validate_navigate_domains [BrowserAction.NavigateAction urlBank] ["examplebank.com"]
        = Except.ok () :=
  ⟨(claim_c7_guard_pure_idempotent [BrowserAction.NavigateAction urlBank]
      ["examplebank.com"]).1,
   (claim_c7_guard_pure_idempotent [BrowserAction.NavigateAction urlBank]
      ["examplebank.com"]).2.mpr
     (by
       intro u hm
       simp only [List.mem_singleton, BrowserAction.NavigateAction.injEq] at hm
       subst hm
       decide)⟩
